import Mathlib

/-!
Shallow embedding of the ACRN device-model virtual-device core:
the framebuffer PCI device (`hw/pci/pci_fbuf.c`) and the ACPI
power-management timer (`hw/platform/pmtimer.c`), together with proofs
of the specified properties.

Machine integers are modelled as `Nat` with explicit truncation
(`% 2 ^ w`) where the C code's fixed-width arithmetic matters; byte
memory is modelled as a function from byte address to byte value.
-/

/-! ## Framebuffer device: BAR0 register file (pci_fbuf.c) -/

/-- `DMEMSZ`: size of the BAR0 register file in bytes. -/
def DMEMSZ : Nat := 128

/-- State of one `pci_fbuf_vdev` instance as far as BAR0 accesses touch it:
the byte-addressed memory holding `memregs` at offsets `[0, 128)` (modelling
`(uint8_t *)&fb->memregs + offset`; addresses `≥ 128` stand for adjacent
memory outside the register file), the display-mode flag
`fb->gc_image->vgamode`, and the tracked render geometry
`fb->gc_width` / `fb->gc_height`.  The host-only fields (`rfb_*`,
`fb_base`, `vga_dev`, ...) are not touched by the BAR handlers. -/
structure FbufVdev where
  memregs : Nat → Nat
  vgamode : Bool
  gc_width : Nat
  gc_height : Nat

/-- Little-endian store of the low `k` bytes of `v` at byte address `off`
(the effect of `*(uintN_t *)p = value` on x86). -/
def storeBytes (m : Nat → Nat) (off : Nat) : Nat → Nat → (Nat → Nat)
  | 0, _ => m
  | k + 1, v =>
    storeBytes (fun j => if j = off then v % 256 else m j) (off + 1) k (v / 256)

/-- Little-endian load of `k` bytes at byte address `off`. -/
def loadBytes (m : Nat → Nat) (off : Nat) : Nat → Nat
  | 0 => 0
  | k + 1 => m off + 256 * loadBytes m (off + 1) k

/-- The `memregs.width` field: u16 at offset 4 of the packed struct. -/
def memregsWidth (m : Nat → Nat) : Nat := loadBytes m 4 2

/-- The `memregs.height` field: u16 at offset 6 of the packed struct. -/
def memregsHeight (m : Nat → Nat) : Nat := loadBytes m 6 2

/-- The store performed by `pci_fbuf_write`'s `switch (size)`: sizes
1/2/4/8 store `value` at `offset`; the `default` case only prints
"write unknown size" and leaves memory untouched. -/
def fbufStore (m : Nat → Nat) (offset size value : Nat) : Nat → Nat :=
  match size with
  | 1 => storeBytes m offset 1 value
  | 2 => storeBytes m offset 2 value
  | 4 => storeBytes m offset 4 value
  | 8 => storeBytes m offset 8 value
  | _ => m

/-- The load performed by `pci_fbuf_read`'s `switch (size)`; in the
`default` case `value` keeps its initialisation value 0. -/
def fbufLoad (m : Nat → Nat) (offset size : Nat) : Nat :=
  match size with
  | 1 => loadBytes m offset 1
  | 2 => loadBytes m offset 2
  | 4 => loadBytes m offset 4
  | 8 => loadBytes m offset 8
  | _ => 0

/-- The mode-transition block at the end of `pci_fbuf_write`, evaluated
on the post-store memory `m`: switch VESA→VGA (also clearing the tracked
geometry) when not in VGA mode and width and height are both zero, switch
VGA→VESA when in VGA mode and both are non-zero. -/
def fbufModeUpdate (fb : FbufVdev) (m : Nat → Nat) : FbufVdev :=
  if fb.vgamode = false ∧ memregsWidth m = 0 ∧ memregsHeight m = 0 then
    { memregs := m, vgamode := true, gc_width := 0, gc_height := 0 }
  else if fb.vgamode = true ∧ memregsWidth m ≠ 0 ∧ memregsHeight m ≠ 0 then
    { memregs := m, vgamode := false, gc_width := fb.gc_width,
      gc_height := fb.gc_height }
  else
    { memregs := m, vgamode := fb.vgamode, gc_width := fb.gc_width,
      gc_height := fb.gc_height }

/-- `pci_fbuf_write`: the BAR0 write handler.  Rejects accesses with
`offset + size > DMEMSZ` (diagnostic only, state untouched); otherwise
performs the store and re-evaluates the VGA/VESA mode transition. -/
def pci_fbuf_write (fb : FbufVdev) (offset size value : Nat) : FbufVdev :=
  if offset + size > DMEMSZ then fb
  else fbufModeUpdate fb (fbufStore fb.memregs offset size value)

/-- `pci_fbuf_read`: the BAR0 read handler.  Returns the value read and
the (unchanged) device state.  Out-of-bounds accesses return 0. -/
def pci_fbuf_read (fb : FbufVdev) (offset size : Nat) : Nat × FbufVdev :=
  if offset + size > DMEMSZ then (0, fb)
  else (fbufLoad fb.memregs offset size, fb)

lemma storeBytes_eq_of_lt (k : Nat) :
    ∀ (m : Nat → Nat) (off v j : Nat), j < off → storeBytes m off k v j = m j := by
  induction k with
  | zero => intro m off v j _; rfl
  | succ k ih =>
    intro m off v j hj
    simp only [storeBytes]
    rw [ih _ (off + 1) _ j (by omega)]
    simp [Nat.ne_of_lt hj]

lemma loadBytes_storeBytes (k : Nat) :
    ∀ (m : Nat → Nat) (off v : Nat),
      loadBytes (storeBytes m off k v) off k = v % 256 ^ k := by
  induction k with
  | zero => intro m off v; simp [loadBytes, storeBytes, Nat.mod_one]
  | succ k ih =>
    intro m off v
    simp only [loadBytes, storeBytes]
    rw [ih _ (off + 1) (v / 256),
      storeBytes_eq_of_lt k _ (off + 1) _ off (by omega)]
    have h256 : (256 : Nat) ^ (k + 1) = 256 * 256 ^ k := by ring
    rw [h256, Nat.mod_mul]
    simp

lemma fbufModeUpdate_memregs (fb : FbufVdev) (m : Nat → Nat) :
    (fbufModeUpdate fb m).memregs = m := by
  unfold fbufModeUpdate
  split
  · rfl
  · split <;> rfl

lemma pci_fbuf_write_eq (fb : FbufVdev) (offset size value : Nat)
    (hb : offset + size ≤ DMEMSZ) :
    pci_fbuf_write fb offset size value
      = fbufModeUpdate fb (fbufStore fb.memregs offset size value) := by
  unfold pci_fbuf_write
  rw [if_neg (by omega)]

/-- A concrete all-zero device state, used to instantiate witnesses. -/
def fbufZero : FbufVdev := ⟨fun _ => 0, false, 0, 0⟩

/-- A concrete device state in VGA mode with tracked geometry 100×100. -/
def fbufVga : FbufVdev := ⟨fun _ => 0, true, 100, 100⟩

/-- C1: a BAR0 access with `offset + size > 128` is rejected: the read
returns 0, the write is a no-op, and the whole device state (register
file, adjacent memory, mode flag, tracked geometry) is unchanged. -/
theorem fbuf_oob_access_rejected (fb : FbufVdev) (offset size value : Nat)
    (h : offset + size > DMEMSZ) :
    pci_fbuf_write fb offset size value = fb ∧
    pci_fbuf_read fb offset size = (0, fb) := by
  unfold pci_fbuf_write pci_fbuf_read
  rw [if_pos h, if_pos h]
  exact ⟨rfl, rfl⟩

theorem fbuf_oob_access_rejected_witness :
    124 + 8 > DMEMSZ ∧
    (pci_fbuf_write fbufZero 124 8 5 = fbufZero ∧
     pci_fbuf_read fbufZero 124 8 = (0, fbufZero)) :=
  ⟨by decide, fbuf_oob_access_rejected fbufZero 124 8 5 (by decide)⟩

/-- C10: `pci_fbuf_read` never modifies the device state, for every
offset and size, in-bounds or out-of-bounds. -/
theorem fbuf_read_leaves_state_unchanged (fb : FbufVdev) (offset size : Nat) :
    (pci_fbuf_read fb offset size).2 = fb := by
  unfold pci_fbuf_read
  split <;> rfl

/-- C7: for every supported access size and in-bounds offset, a write of
`value` followed by a read at the same offset and size returns `value`
truncated to the access size. -/
theorem fbuf_write_read_roundtrip (fb : FbufVdev) (offset size value : Nat)
    (hsz : size = 1 ∨ size = 2 ∨ size = 4 ∨ size = 8)
    (hb : offset + size ≤ DMEMSZ) :
    (pci_fbuf_read (pci_fbuf_write fb offset size value) offset size).1
      = value % 2 ^ (8 * size) := by
  rw [pci_fbuf_write_eq fb offset size value hb]
  unfold pci_fbuf_read
  rw [if_neg (by omega), fbufModeUpdate_memregs]
  rcases hsz with h | h | h | h <;> subst h <;>
    simp [fbufLoad, fbufStore, loadBytes_storeBytes]

theorem fbuf_write_read_roundtrip_witness :
    ((4 : Nat) = 1 ∨ (4 : Nat) = 2 ∨ (4 : Nat) = 4 ∨ (4 : Nat) = 8) ∧
    4 + 4 ≤ DMEMSZ ∧
    (pci_fbuf_read (pci_fbuf_write fbufZero 4 4 (2 ^ 40 + 77)) 4 4).1
      = (2 ^ 40 + 77) % 2 ^ (8 * 4) :=
  ⟨by decide, by decide,
    fbuf_write_read_roundtrip fbufZero 4 4 (2 ^ 40 + 77) (by decide) (by decide)⟩

/-- C5: after an in-bounds BAR0 write, the mode switches VESA→VGA exactly
when the device was in VESA mode and both width and height registers are
zero, and VGA→VESA exactly when it was in VGA mode and both are non-zero;
in particular a write leaving exactly one of them zero never transitions. -/
theorem fbuf_write_mode_transitions (fb : FbufVdev) (offset size value : Nat)
    (hb : offset + size ≤ DMEMSZ) :
    ((pci_fbuf_write fb offset size value).vgamode = true ∧ fb.vgamode = false
       ↔ fb.vgamode = false
         ∧ memregsWidth (pci_fbuf_write fb offset size value).memregs = 0
         ∧ memregsHeight (pci_fbuf_write fb offset size value).memregs = 0) ∧
    ((pci_fbuf_write fb offset size value).vgamode = false ∧ fb.vgamode = true
       ↔ fb.vgamode = true
         ∧ memregsWidth (pci_fbuf_write fb offset size value).memregs ≠ 0
         ∧ memregsHeight (pci_fbuf_write fb offset size value).memregs ≠ 0) := by
  rw [pci_fbuf_write_eq fb offset size value hb, fbufModeUpdate_memregs]
  unfold fbufModeUpdate
  by_cases h1 : fb.vgamode = false
      ∧ memregsWidth (fbufStore fb.memregs offset size value) = 0
      ∧ memregsHeight (fbufStore fb.memregs offset size value) = 0
  · rw [if_pos h1]
    obtain ⟨ha, hw0, hh0⟩ := h1
    simp [ha, hw0, hh0]
  · rw [if_neg h1]
    by_cases h2 : fb.vgamode = true
        ∧ memregsWidth (fbufStore fb.memregs offset size value) ≠ 0
        ∧ memregsHeight (fbufStore fb.memregs offset size value) ≠ 0
    · rw [if_pos h2]
      obtain ⟨ha, hw0, hh0⟩ := h2
      simp [ha, hw0, hh0]
    · rw [if_neg h2]
      cases hfb : fb.vgamode <;> simp [hfb] at h1 h2 ⊢ <;> tauto

theorem fbuf_write_mode_transitions_witness :
    4 + 4 ≤ DMEMSZ ∧
    (((pci_fbuf_write fbufVga 4 4 (100 + 100 * 2 ^ 16)).vgamode = true
        ∧ fbufVga.vgamode = false
       ↔ fbufVga.vgamode = false
         ∧ memregsWidth (pci_fbuf_write fbufVga 4 4 (100 + 100 * 2 ^ 16)).memregs = 0
         ∧ memregsHeight (pci_fbuf_write fbufVga 4 4 (100 + 100 * 2 ^ 16)).memregs = 0) ∧
     ((pci_fbuf_write fbufVga 4 4 (100 + 100 * 2 ^ 16)).vgamode = false
        ∧ fbufVga.vgamode = true
       ↔ fbufVga.vgamode = true
         ∧ memregsWidth (pci_fbuf_write fbufVga 4 4 (100 + 100 * 2 ^ 16)).memregs ≠ 0
         ∧ memregsHeight (pci_fbuf_write fbufVga 4 4 (100 + 100 * 2 ^ 16)).memregs ≠ 0)) :=
  ⟨by decide, fbuf_write_mode_transitions fbufVga 4 4 (100 + 100 * 2 ^ 16) (by decide)⟩

/-- C6 counterexample: a VGA→VESA transition (write width=100, height=100
while in VGA mode) does NOT reset the tracked render geometry: `gc_width`
and `gc_height` keep their old value 100, so the claim that every mode
transition resets them is false (here the next render would not even see a
geometry change, since the tracked 100×100 equals the new registers). -/
theorem fbuf_vga_to_vesa_no_gc_reset :
    fbufVga.vgamode = true ∧
    (pci_fbuf_write fbufVga 4 4 (100 + 100 * 2 ^ 16)).vgamode = false ∧
    (pci_fbuf_write fbufVga 4 4 (100 + 100 * 2 ^ 16)).gc_width = 100 ∧
    (pci_fbuf_write fbufVga 4 4 (100 + 100 * 2 ^ 16)).gc_height = 100 := by
  decide

/-! ## Framebuffer device: option parsing and initialization -/

/-- Split a character list at the first occurrence of `c` (the effect of
`strchr`/`strsep` with a one-character delimiter set): `none` when `c`
does not occur, otherwise the parts before and after it. -/
def splitFirst (c : Char) : List Char → Option (List Char × List Char)
  | [] => none
  | x :: xs =>
    if x = c then some ([], xs)
    else
      match splitFirst c xs with
      | some (a, b) => some (x :: a, b)
      | none => none

/-- Accumulating pass behind `splitTokens`. -/
def splitTokensAux (c : Char) : List Char → List Char → List (List Char)
  | [], acc => [acc.reverse]
  | x :: xs, acc =>
    if x = c then acc.reverse :: splitTokensAux c xs []
    else splitTokensAux c xs (x :: acc)

/-- All segments of `l` delimited by `c`.  `strtok_r` additionally skips
empty segments; the caller filters those out. -/
def splitTokens (c : Char) (l : List Char) : List (List Char) :=
  splitTokensAux c l []

/-- Decimal-digit accumulator behind `dm_strtoi`. -/
def dmStrtoGo (acc : Nat) : List Char → Nat
  | [] => acc
  | x :: xs =>
    if x.isDigit then dmStrtoGo (acc * 10 + (x.toNat - 48)) xs else acc

/-- Modelled from the spec: `dm_strtoi`/`dm_strtoui` (from `dm_string.c`,
which is not part of this source tree) convert the leading decimal digits
of a string, leaving any trailing characters to the out end-pointer; the
conversion fails exactly when no digit is present ("port is mandatory and
numeric"; "any unrecognized token or malformed value fails device
creation").  Signs and out-of-range detection are irrelevant to the inputs
considered here. -/
def dm_strtoi : List Char → Option Nat
  | [] => none
  | x :: xs => if x.isDigit then some (dmStrtoGo 0 (x :: xs)) else none

/-- Same conversion for the unsigned variant `dm_strtoui`. -/
def dm_strtoui (l : List Char) : Option Nat := dm_strtoi l

/-- The fields of `struct pci_fbuf_vdev` mutated by option parsing.
`width`/`height` are the `memregs.width`/`memregs.height` u16 registers. -/
structure FbufOpts where
  rfb_host : Option (List Char)
  rfb_password : Option (List Char)
  rfb_port : Nat
  rfb_wait : Nat
  vga_enabled : Nat
  vga_full : Nat
  width : Nat
  height : Nat
deriving DecidableEq

/-- Token loop of `pci_fbuf_parse_opts`: processes each `strtok_r` token
in turn, mutating `fb`; any failure prints a usage message and stops with
return value −1 (`goto done`), leaving the mutations made so far. -/
def pci_fbuf_parse_opts_go (fb : FbufOpts) : List (List Char) → Int × FbufOpts
  | [] => (0, fb)
  | tok :: rest =>
    if tok = "wait".toList then
      pci_fbuf_parse_opts_go { fb with rfb_wait := 1 } rest
    else
      match splitFirst '=' tok with
      | none => (-1, fb)
      | some (xopts, config) =>
        if xopts = "tcp".toList ∨ xopts = "rfb".toList then
          match splitFirst ']' config with
          | some (tmpstr, rest2) =>
            let host := match tmpstr with
                        | '[' :: t => t
                        | _ => tmpstr
            match rest2 with
            | ':' :: portstr =>
              match dm_strtoi portstr with
              | some port =>
                pci_fbuf_parse_opts_go
                  { fb with rfb_host := some host, rfb_port := port } rest
              | none => (-1, { fb with rfb_host := some host })
            | _ => (-1, { fb with rfb_host := some host })
          | none =>
            match splitFirst ':' config with
            | none =>
              match dm_strtoi config with
              | some port => pci_fbuf_parse_opts_go { fb with rfb_port := port } rest
              | none => (-1, fb)
            | some (host, portstr) =>
              match dm_strtoi portstr with
              | some port =>
                pci_fbuf_parse_opts_go
                  { fb with rfb_port := port, rfb_host := some host } rest
              | none => (-1, fb)
        else if xopts = "vga".toList then
          if config = "off".toList then
            pci_fbuf_parse_opts_go { fb with vga_enabled := 0 } rest
          else if config = "io".toList then
            pci_fbuf_parse_opts_go { fb with vga_enabled := 1, vga_full := 0 } rest
          else if config = "on".toList then
            pci_fbuf_parse_opts_go { fb with vga_enabled := 1, vga_full := 1 } rest
          else (-1, fb)
        else if xopts = "w".toList then
          match dm_strtoui config with
          | some val =>
            if val % 65536 = val then
              if val > 1920 then (-1, { fb with width := val })
              else if val = 0 then pci_fbuf_parse_opts_go { fb with width := 1920 } rest
              else pci_fbuf_parse_opts_go { fb with width := val } rest
            else (-1, fb)
          | none => (-1, fb)
        else if xopts = "h".toList then
          match dm_strtoui config with
          | some val =>
            if val % 65536 = val then
              if val > 1200 then (-1, { fb with height := val })
              else if val = 0 then pci_fbuf_parse_opts_go { fb with height := 1080 } rest
              else pci_fbuf_parse_opts_go { fb with height := val } rest
            else (-1, fb)
          | none => (-1, fb)
        else if xopts = "password".toList then
          pci_fbuf_parse_opts_go { fb with rfb_password := some config } rest
        else (-1, fb)

/-- `pci_fbuf_parse_opts`: tokenize the option string at commas
(`strtok_r` skips empty segments) and process each token. -/
def pci_fbuf_parse_opts (fb : FbufOpts) (opts : List Char) : Int × FbufOpts :=
  pci_fbuf_parse_opts_go fb ((splitTokens ',' opts).filter (fun t => t ≠ []))

/-- The `pci_fbuf_vdev` option state assembled by `pci_fbuf_init` before
it calls `pci_fbuf_parse_opts`: `calloc` zero-fill, then the defaults
1024×768, VGA enabled, not full VGA. -/
def fbufInitOpts : FbufOpts :=
  { rfb_host := none, rfb_password := none, rfb_port := 0, rfb_wait := 0,
    vga_enabled := 1, vga_full := 0, width := 1024, height := 768 }

/-- The observable outcome of `pci_fbuf_init`: its return value, whether
the allocated `fb` was released at `done:`, whether the process-wide
singleton `fbuf_dev` was assigned, and whether the console/render
callback was registered. -/
structure InitOutcome where
  error : Int
  fb_freed : Bool
  fbuf_dev_registered : Bool
  console_registered : Bool
deriving DecidableEq

/-- `pci_fbuf_init`, with the outcomes of its external collaborators as
parameters: `fbuf_dev_present` is whether the singleton `fbuf_dev` is
already set on entry, `map_memseg_ok` the success of `vm_map_memseg_vma`,
and `rfb_init_ret` the return value of `rfb_init`.  The BAR/MSI
allocations are assert-checked in the source and modelled as succeeding.
Control flow follows the source exactly: notably, the full-VGA check and
the `done:` label are reached with `error` still 0 after a successful
parse, and `fbuf_dev = fb` is assigned before `rfb_init` runs. -/
def pci_fbuf_init (fbuf_dev_present : Bool) (opts : List Char)
    (map_memseg_ok : Bool) (rfb_init_ret : Int) : InitOutcome :=
  if fbuf_dev_present then
    { error := -1, fb_freed := false, fbuf_dev_registered := false,
      console_registered := false }
  else
    let r := pci_fbuf_parse_opts fbufInitOpts opts
    if r.1 ≠ 0 then
      { error := r.1, fb_freed := true, fbuf_dev_registered := false,
        console_registered := false }
    else if r.2.vga_full ≠ 0 then
      { error := 0, fb_freed := false, fbuf_dev_registered := false,
        console_registered := false }
    else if map_memseg_ok = false then
      { error := -1, fb_freed := true, fbuf_dev_registered := false,
        console_registered := false }
    else
      { error := rfb_init_ret, fb_freed := decide (rfb_init_ret ≠ 0),
        fbuf_dev_registered := true, console_registered := true }

/-- C8: the three option-parsing scenarios from the spec, evaluated on
the parser as called by `pci_fbuf_init`. -/
theorem fbuf_parse_opts_scenarios :
    (pci_fbuf_parse_opts fbufInitOpts "vga=on,rfb=127.0.0.1:5900,w=0,h=0".toList
      = (0, { rfb_host := some "127.0.0.1".toList, rfb_password := none,
              rfb_port := 5900, rfb_wait := 0, vga_enabled := 1, vga_full := 1,
              width := 1920, height := 1080 })) ∧
    (pci_fbuf_parse_opts fbufInitOpts "w=2000".toList).1 = -1 ∧
    (pci_fbuf_parse_opts fbufInitOpts "vga=bogus".toList).1 = -1 := by
  decide

/-- C3: selecting full VGA (`vga=on`) does NOT fail `pci_fbuf_init`: the
`goto done` is taken while `error` is still 0, so init returns 0 (success)
even though it skipped registration, contradicting the claimed non-zero
configuration error. -/
theorem fbuf_init_vga_on_returns_success :
    pci_fbuf_init false "vga=on".toList true 0
      = { error := 0, fb_freed := false, fbuf_dev_registered := false,
          console_registered := false } := by
  decide

/-- C4: when `rfb_init` fails, `pci_fbuf_init` returns the error and frees
`fb`, but the process-wide singleton `fbuf_dev` was already assigned and is
left set (now dangling), contradicting the claim that on every error no
partial device state is left registered. -/
theorem fbuf_init_rfb_fail_leaves_singleton :
    pci_fbuf_init false "rfb=127.0.0.1:5900".toList true (-1)
      = { error := -1, fb_freed := true, fbuf_dev_registered := true,
          console_registered := true } := by
  decide

/-! ## ACPI power-management timer (pmtimer.c) -/

/-- ACPI PM timer tick rate in Hz. -/
def PMTMR_TICK_RATE : Nat := 3579545

/-- Nanoseconds per second. -/
def NANOSEC_TICK_RATE : Nat := 1000000000

/-- Low 31 bits of the counter (`PMTMR_32BIT` is fixed to true). -/
def PMTMR_NOCARRY_MASK : Nat := 0x7fffffff

/-- Counts from 0 to the next carry-bit flip. -/
def PMTMR_NOCARRY_CNTS : Nat := PMTMR_NOCARRY_MASK

/-- The carry bit: bit 31 of the counter. -/
def PMTMR_CARRY_MASK : Nat := 0x80000000

/-- `struct timespec`. -/
structure Timespec where
  tv_sec : Nat
  tv_nsec : Nat
deriving DecidableEq

/-- `struct itimerspec`: the interval and initial expiration of a timer. -/
structure Itimerspec where
  it_interval : Timespec
  it_value : Timespec
deriving DecidableEq

/-- `struct vpmtmr`, restricted to the fields the set/get/io operations
touch: the latched carry flag and the armed one-shot timer specification
passed to `acrn_timer_settime`.  The `vm` back pointer, the mutex (the
claims here are single-threaded) and `io_addr` are omitted. -/
structure Vpmtmr where
  msb_is_set : Bool
  timer_armed : Itimerspec
deriving DecidableEq

/-- `set_pmtmr_val`: latch the carry flag from bit 31 of `val`, compute
the counts left until the carry bit flips, convert them to a host
duration and arm the one-shot timer with it (`it_interval` zero). -/
def set_pmtmr_val (vpmtmr : Vpmtmr) (val : Nat) : Vpmtmr :=
  let cnt2carry := PMTMR_NOCARRY_CNTS - (val &&& PMTMR_NOCARRY_MASK)
  let sec := cnt2carry / PMTMR_TICK_RATE
  let tv_nsecs := cnt2carry * NANOSEC_TICK_RATE / PMTMR_TICK_RATE
  { msb_is_set := decide (val &&& PMTMR_CARRY_MASK ≠ 0),
    timer_armed :=
      { it_interval := ⟨0, 0⟩,
        it_value := ⟨sec, tv_nsecs - sec * NANOSEC_TICK_RATE⟩ } }

/-- `get_pmtmr_val`: from the remaining time `its` reported by
`acrn_timer_gettime`, recover the counts left to the carry flip
(truncated to `uint32_t` on assignment), reconstruct the counter as
`PMTMR_NOCARRY_CNTS - (cnt2carry & PMTMR_NOCARRY_MASK)` and overlay the
latched carry bit (`~PMTMR_CARRY_MASK` on `uint32_t` is `0x7fffffff`). -/
def get_pmtmr_val (vpmtmr : Vpmtmr) (its : Itimerspec) : Nat :=
  let val_nsecs := its.it_value.tv_sec * NANOSEC_TICK_RATE + its.it_value.tv_nsec
  let cnt2carry := val_nsecs * PMTMR_TICK_RATE / NANOSEC_TICK_RATE % 2 ^ 32
  let tmr_val := PMTMR_NOCARRY_CNTS - (cnt2carry &&& PMTMR_NOCARRY_MASK)
  if vpmtmr.msb_is_set then tmr_val ||| PMTMR_CARRY_MASK
  else tmr_val &&& 0x7fffffff

/-- Result of `vpmtmr_io_handler`: its return value, the (possibly
updated) `*eax`, and the timer state afterwards. -/
structure InoutResult where
  ret : Int
  eax : Nat
  timer_state : Vpmtmr
deriving DecidableEq

/-- `vpmtmr_io_handler`: an IN loads the current counter value into
`eax`; an OUT only prints "Invalid IO write! PMTimer port is read only!"
and is dropped.  Both paths return 0.  `its` is the remaining time the
underlying timer would report to the read path. -/
def vpmtmr_io_handler (vpmtmr : Vpmtmr) (its : Itimerspec) (is_in : Bool)
    (eax : Nat) : InoutResult :=
  if is_in then
    { ret := 0, eax := get_pmtmr_val vpmtmr its, timer_state := vpmtmr }
  else
    { ret := 0, eax := eax, timer_state := vpmtmr }

lemma div_mul_le_mul_div (c R K : Nat) (hR : 0 < R) : c / R * K ≤ c * K / R := by
  rw [Nat.le_div_iff_mul_le hR]
  calc c / R * K * R = c / R * R * K := by ring
    _ ≤ c * K := Nat.mul_le_mul_right K (Nat.div_mul_le_self c R)

/-- Converting a tick count to nanoseconds at the PM-timer rate and back
loses at most one tick. -/
lemma pmtmr_reconvert_bounds (c : Nat) :
    c * NANOSEC_TICK_RATE / PMTMR_TICK_RATE * PMTMR_TICK_RATE / NANOSEC_TICK_RATE ≤ c ∧
    c ≤ c * NANOSEC_TICK_RATE / PMTMR_TICK_RATE * PMTMR_TICK_RATE / NANOSEC_TICK_RATE
        + 1 := by
  have h1 := Nat.div_add_mod (c * NANOSEC_TICK_RATE) PMTMR_TICK_RATE
  have h2 : c * NANOSEC_TICK_RATE % PMTMR_TICK_RATE < PMTMR_TICK_RATE :=
    Nat.mod_lt _ (by norm_num [PMTMR_TICK_RATE])
  have h3 := Nat.div_add_mod
    (c * NANOSEC_TICK_RATE / PMTMR_TICK_RATE * PMTMR_TICK_RATE) NANOSEC_TICK_RATE
  have h4 : c * NANOSEC_TICK_RATE / PMTMR_TICK_RATE * PMTMR_TICK_RATE
      % NANOSEC_TICK_RATE < NANOSEC_TICK_RATE :=
    Nat.mod_lt _ (by norm_num [NANOSEC_TICK_RATE])
  simp only [PMTMR_TICK_RATE, NANOSEC_TICK_RATE] at *
  omega

/-- C2: arming the timer with `set_pmtmr_val v` and reading back through
`get_pmtmr_val` with the full armed duration still remaining (no host
time elapsed) reproduces bit 31 of `v` exactly and the low 31 bits of
`v` to within one tick. -/
theorem pmtmr_set_get_roundtrip (s : Vpmtmr) (v : Nat) (hv : v < 2 ^ 32) :
    get_pmtmr_val (set_pmtmr_val s v) (set_pmtmr_val s v).timer_armed / 2 ^ 31
        = v / 2 ^ 31 ∧
    v % 2 ^ 31
        ≤ get_pmtmr_val (set_pmtmr_val s v) (set_pmtmr_val s v).timer_armed % 2 ^ 31 ∧
    get_pmtmr_val (set_pmtmr_val s v) (set_pmtmr_val s v).timer_armed % 2 ^ 31
        ≤ v % 2 ^ 31 + 1 := by
  have hR : (0 : Nat) < PMTMR_TICK_RATE := by norm_num [PMTMR_TICK_RATE]
  have hmask : PMTMR_NOCARRY_MASK = 2 ^ 31 - 1 := by norm_num [PMTMR_NOCARRY_MASK]
  have hland : v &&& PMTMR_NOCARRY_MASK = v % 2 ^ 31 := by
    rw [hmask, Nat.and_pow_two_sub_one_eq_mod]
  have hbit : v &&& PMTMR_CARRY_MASK = v / 2 ^ 31 * 2 ^ 31 := by
    have h : PMTMR_CARRY_MASK = 2 ^ 31 := by norm_num [PMTMR_CARRY_MASK]
    have h2 : v / 2147483648 = 0 ∨ v / 2147483648 = 1 := by omega
    rw [h, Nat.and_two_pow, Nat.testBit_to_div_mod]
    rcases h2 with h2 | h2 <;> simp [h2]
  simp only [get_pmtmr_val, set_pmtmr_val, hland, hbit]
  set c := PMTMR_NOCARRY_CNTS - v % 2 ^ 31 with hcdef
  have hle : c / PMTMR_TICK_RATE * NANOSEC_TICK_RATE
      ≤ c * NANOSEC_TICK_RATE / PMTMR_TICK_RATE :=
    div_mul_le_mul_div c PMTMR_TICK_RATE NANOSEC_TICK_RATE hR
  have hval : c / PMTMR_TICK_RATE * NANOSEC_TICK_RATE
      + (c * NANOSEC_TICK_RATE / PMTMR_TICK_RATE
         - c / PMTMR_TICK_RATE * NANOSEC_TICK_RATE)
      = c * NANOSEC_TICK_RATE / PMTMR_TICK_RATE := by omega
  rw [hval]
  set c2 := c * NANOSEC_TICK_RATE / PMTMR_TICK_RATE * PMTMR_TICK_RATE
      / NANOSEC_TICK_RATE with hc2def
  obtain ⟨hb1, hb2⟩ := pmtmr_reconvert_bounds c
  rw [← hc2def] at hb1 hb2
  have hclt : c ≤ 2 ^ 31 - 1 := by
    rw [hcdef]; norm_num [PMTMR_NOCARRY_CNTS, PMTMR_NOCARRY_MASK]
  have hmod : c2 % 2 ^ 32 = c2 := Nat.mod_eq_of_lt (by omega)
  rw [hmod]
  have hland2 : c2 &&& PMTMR_NOCARRY_MASK = c2 := by
    rw [hmask, Nat.and_pow_two_sub_one_eq_mod, Nat.mod_eq_of_lt (by omega)]
  rw [hland2]
  have hcnts : PMTMR_NOCARRY_CNTS = 2 ^ 31 - 1 := by
    norm_num [PMTMR_NOCARRY_CNTS, PMTMR_NOCARRY_MASK]
  rw [hcnts] at hcdef ⊢
  have h2 : v / 2 ^ 31 = 0 ∨ v / 2 ^ 31 = 1 := by omega
  rcases h2 with h2 | h2
  · rw [h2]
    rw [if_neg (by simp)]
    have hand : (2 ^ 31 - 1 - c2) &&& 0x7fffffff = 2 ^ 31 - 1 - c2 := by
      rw [show (0x7fffffff : Nat) = 2 ^ 31 - 1 from by norm_num,
        Nat.and_pow_two_sub_one_eq_mod, Nat.mod_eq_of_lt (by omega)]
    rw [hand]
    omega
  · rw [h2]
    rw [if_pos (by norm_num)]
    have hor : (2 ^ 31 - 1 - c2) ||| PMTMR_CARRY_MASK
        = 2 ^ 31 + (2 ^ 31 - 1 - c2) := by
      rw [show PMTMR_CARRY_MASK = 2 ^ 31 from by norm_num [PMTMR_CARRY_MASK],
        Nat.lor_comm]
      have := Nat.mul_add_lt_is_or
        (show 2 ^ 31 - 1 - c2 < 2 ^ 31 by omega) 1
      simpa using this.symm
    rw [hor]
    omega

/-- A concrete timer state (as set up by `vpmtmr_init`), used to
instantiate witnesses. -/
def vpmtmrZero : Vpmtmr := ⟨false, ⟨⟨0, 0⟩, ⟨0, 0⟩⟩⟩

theorem pmtmr_set_get_roundtrip_witness :
    (2 ^ 31 + 123456 : Nat) < 2 ^ 32 ∧
    (get_pmtmr_val (set_pmtmr_val vpmtmrZero (2 ^ 31 + 123456))
          (set_pmtmr_val vpmtmrZero (2 ^ 31 + 123456)).timer_armed / 2 ^ 31
        = (2 ^ 31 + 123456) / 2 ^ 31 ∧
     (2 ^ 31 + 123456) % 2 ^ 31
        ≤ get_pmtmr_val (set_pmtmr_val vpmtmrZero (2 ^ 31 + 123456))
            (set_pmtmr_val vpmtmrZero (2 ^ 31 + 123456)).timer_armed % 2 ^ 31 ∧
     get_pmtmr_val (set_pmtmr_val vpmtmrZero (2 ^ 31 + 123456))
          (set_pmtmr_val vpmtmrZero (2 ^ 31 + 123456)).timer_armed % 2 ^ 31
        ≤ (2 ^ 31 + 123456) % 2 ^ 31 + 1) :=
  ⟨by decide, pmtmr_set_get_roundtrip vpmtmrZero (2 ^ 31 + 123456) (by decide)⟩

/-- C9: a guest OUT to the PM-timer port is dropped: the handler returns
success (0) and leaves `eax`, the latched carry flag and the armed timer
all unchanged. -/
theorem vpmtmr_write_dropped (vpmtmr : Vpmtmr) (its : Itimerspec) (eax : Nat) :
    vpmtmr_io_handler vpmtmr its false eax
      = { ret := 0, eax := eax, timer_state := vpmtmr } := by
  rfl

/-- C6 (amended): only the VESA→VGA transition resets the tracked render
geometry (`gc_width`, `gc_height`) to 0; the VGA→VESA transition changes
only the mode flag and leaves the tracked geometry unchanged. -/
theorem fbuf_mode_transition_gc_update (fb : FbufVdev) (offset size value : Nat)
    (hb : offset + size ≤ DMEMSZ) :
    (fb.vgamode = false ∧ (pci_fbuf_write fb offset size value).vgamode = true →
      (pci_fbuf_write fb offset size value).gc_width = 0 ∧
      (pci_fbuf_write fb offset size value).gc_height = 0) ∧
    (fb.vgamode = true ∧ (pci_fbuf_write fb offset size value).vgamode = false →
      (pci_fbuf_write fb offset size value).gc_width = fb.gc_width ∧
      (pci_fbuf_write fb offset size value).gc_height = fb.gc_height) := by
  rw [pci_fbuf_write_eq fb offset size value hb]
  unfold fbufModeUpdate
  split
  · simp
  · split <;> simp

theorem fbuf_mode_transition_gc_update_witness :
    4 + 4 ≤ DMEMSZ ∧
    ((fbufVga.vgamode = false
        ∧ (pci_fbuf_write fbufVga 4 4 (100 + 100 * 2 ^ 16)).vgamode = true →
       (pci_fbuf_write fbufVga 4 4 (100 + 100 * 2 ^ 16)).gc_width = 0 ∧
       (pci_fbuf_write fbufVga 4 4 (100 + 100 * 2 ^ 16)).gc_height = 0) ∧
     (fbufVga.vgamode = true
        ∧ (pci_fbuf_write fbufVga 4 4 (100 + 100 * 2 ^ 16)).vgamode = false →
       (pci_fbuf_write fbufVga 4 4 (100 + 100 * 2 ^ 16)).gc_width = fbufVga.gc_width ∧
       (pci_fbuf_write fbufVga 4 4 (100 + 100 * 2 ^ 16)).gc_height = fbufVga.gc_height)) :=
  ⟨by decide, fbuf_mode_transition_gc_update fbufVga 4 4 (100 + 100 * 2 ^ 16) (by decide)⟩
